import Mathlib

/-
Verification of the resume-analyzer batch pipeline.

The definitions below are a shallow embedding of the Python sources:
  src/misc/file_processor.py   (text extractor and extension dispatch)
  src/api/models.py            (Candidate pydantic schema)
  src/api/notion.py            (NotionManager: duplicate check, file upload, row creation)
  src/core/extraction.py       (phase 1: text extraction over the work list)
  src/core/gemini_processing.py (phase 2: bounded-concurrency extraction-service calls)
  src/core/notion_upload.py    (phase 3: bounded-concurrency record-store calls)
  src/commands/process.py      (scanner / batch driver)
  src/commands/watch.py        (watcher path of the processed log)
  src/app.py                   (CLI option defaults)

External effects (filesystem, network) are passed in as explicit oracle
arguments; fallible calls return Except or Option values.
-/

/- ===================== Definitions ===================== -/

/-- Lower-casing of one character, as str.lower acts on ASCII letters. -/
def lowerChar (c : Char) : Char := c.toLower

/-- Embedding of str.lower restricted to what the sources compare
(ASCII file extensions). -/
def strToLower (s : String) : String := ⟨s.data.map lowerChar⟩

/-- Embedding of str.endswith. -/
def strEndsWith (s suffix : String) : Bool := suffix.data.isSuffixOf s.data

/-- Characters stripped by str.strip with no argument (the whitespace
characters occurring in extracted text). -/
def pyIsSpace (c : Char) : Bool := c = ' ' || c = '\t' || c = '\n' || c = '\r'

/-- Embedding of str.strip with no argument: remove leading and trailing
whitespace. -/
def strStrip (s : String) : String :=
  ⟨((s.data.dropWhile pyIsSpace).reverse.dropWhile pyIsSpace).reverse⟩

/-- Splitting a character list at a separator, as str.split does. -/
def splitCharList (sep : Char) : List Char → List Char → List (List Char)
  | [], acc => [acc.reverse]
  | c :: rest, acc =>
    if c = sep then acc.reverse :: splitCharList sep rest []
    else splitCharList sep rest (c :: acc)

/-- Embedding of str.split at a one-character separator. -/
def strSplit (s : String) (sep : Char) : List String :=
  (splitCharList sep s.data []).map (fun cs => ⟨cs⟩)

/-- Embedding of os.path.basename for forward-slash paths: the last component
of the split at the path separator. -/
def basename (path : String) : String :=
  (strSplit path '/').getLastD ""

/-- Entry for a path in the modelled filesystem: the opaque parser either
yields the text of the file or throws (corrupt file, bad encoding). A path
that is absent from the map does not exist. -/
inductive FileEntry where
  | parsed (text : String)
  | corrupt (msg : String)
deriving DecidableEq

/-- Modelled filesystem seen by the text extractor. -/
def FileSystem : Type := String → Option FileEntry

/-- Errors of the text extractor, mirroring file_processor.py: FileNotFoundError,
the ValueError raised on a parse failure, and the ValueError raised on an
unrecognized extension. -/
inductive ExtractError where
  | fileNotFound (path : String)
  | extractionError (msg : String)
  | unsupportedFormat (ext : String)
deriving DecidableEq

/-- Mirrors the expression file_path.split with dot and last element, used by
extract_text_from_file to build the unsupported-format message. -/
def lastDotComponent (path : String) : String :=
  (strSplit path '.').getLastD ""

/-- Embedding of extract_text_from_pdf (file_processor.py lines 15-35): checks
existence before opening, then runs the opaque parse, converting any parse
throw into the extraction error. -/
def extract_text_from_pdf (fs : FileSystem) (path : String) : Except ExtractError String :=
  match fs path with
  | none => .error (.fileNotFound path)
  | some (.parsed text) => .ok text
  | some (.corrupt msg) => .error (.extractionError msg)

/-- Embedding of extract_text_from_docx (file_processor.py lines 38-58), same
shape as the PDF branch with the DOCX parser opaque. -/
def extract_text_from_docx (fs : FileSystem) (path : String) : Except ExtractError String :=
  match fs path with
  | none => .error (.fileNotFound path)
  | some (.parsed text) => .ok text
  | some (.corrupt msg) => .error (.extractionError msg)

/-- True when the lower-cased path ends in one of the two supported extensions. -/
def supportedExtension (path : String) : Bool :=
  strEndsWith (strToLower path) ".pdf" || strEndsWith (strToLower path) ".docx"

/-- Embedding of extract_text_from_file (file_processor.py lines 103-121):
dispatch on the lower-cased extension, raising the unsupported-format error
without consulting the filesystem for any other extension. -/
def extract_text_from_file (fs : FileSystem) (path : String) : Except ExtractError String :=
  if strEndsWith (strToLower path) ".pdf" then extract_text_from_pdf fs path
  else if strEndsWith (strToLower path) ".docx" then extract_text_from_docx fs path
  else .error (.unsupportedFormat (lastDotComponent path))

/-- Embedding of the Candidate pydantic model (api/models.py lines 10-27).
Field values are carried unvalidated; schema validation is a separate step,
as in pydantic. -/
structure Candidate where
  full_name : String
  email : String
  contact_number : String
  linkedin_url : String
  gender : String
  date_of_birth : String
  years_of_experience : Int
  personal_skills : List String
  professional_skills : List String
  experience_summary : String
  match_score : Int
  ranking_category : String
  ranking_reason : String
  job_location : String
  job_position_title : String
deriving DecidableEq

/-- The Literal values accepted for the gender field (api/models.py line 17). -/
def genderLiterals : List String := ["Male", "Female", "N/A"]

/-- The Literal values accepted for the ranking_category field
(api/models.py line 24). -/
def rankingCategoryLiterals : List String := ["No Fit", "High Fit", "Medium Fit", "Low Fit"]

/-- Pydantic validation of the Candidate model: the two Literal fields must
hold one of their allowed values, years_of_experience has Field ge 0, and
match_score has Field ge 0 le 100. -/
def Candidate.schemaValid (c : Candidate) : Bool :=
  genderLiterals.contains c.gender &&
  decide (0 ≤ c.years_of_experience) &&
  decide (0 ≤ c.match_score) && decide (c.match_score ≤ 100) &&
  rankingCategoryLiterals.contains c.ranking_category

/-- Schema-validated parse of a service response into a Candidate, mirroring
response.parsed under response_schema Candidate in api/gemini.py: a payload
violating the schema fails validation and yields no record. -/
def parseCandidate (c : Candidate) : Option Candidate :=
  if c.schemaValid then some c else none

/-- Row of the record store as relevant to dedup: the stored Email property
and the stored Position Title property. -/
structure StoredRow where
  email : String
  position_title : String
deriving DecidableEq

/-- Record store handle: the rows currently in the Notion database, plus a
flag selecting the behaviour of the query endpoint (raising or answering). -/
structure NotionStore where
  rows : List StoredRow
  queryRaises : Bool
deriving DecidableEq

/-- The databases.query call issued by check_for_duplicate (api/notion.py
lines 54-64): its filter matches on Email equality only. -/
def queryByEmail (store : NotionStore) (email : String) : Except String (List StoredRow) :=
  if store.queryRaises then .error "API error"
  else .ok (store.rows.filter (fun r => r.email == email))

/-- Embedding of NotionManager.check_for_duplicate (api/notion.py lines 39-69),
returning the boolean outcome together with the number of store queries
issued. Empty or sentinel emails return false before querying; a raising
query is caught and answered false. -/
def check_for_duplicate_run (store : NotionStore) (email : String) : Bool × Nat :=
  if email == "" || email == "N/A" then (false, 0)
  else
    match queryByEmail store email with
    | .ok results => (decide (0 < results.length), 1)
    | .error _ => (false, 1)

/-- Boolean outcome of check_for_duplicate. -/
def check_for_duplicate (store : NotionStore) (email : String) : Bool :=
  (check_for_duplicate_run store email).1

/-- Concrete candidate used to exercise the schema: it carries the gender
sentinel and a ranking label exactly as the Literal types of api/models.py
spell them. -/
def cexSchemaCandidate : Candidate where
  full_name := "Jane Roe"
  email := "jane@example.com"
  contact_number := "123"
  linkedin_url := "https://example.com/janeroe"
  gender := "N/A"
  date_of_birth := "N/A"
  years_of_experience := 3
  personal_skills := ["Communication"]
  professional_skills := ["Python"]
  experience_summary := "Three years of backend work"
  match_score := 75
  ranking_category := "High Fit"
  ranking_reason := "Good skill match"
  job_location := "Singapore"
  job_position_title := "Engineer"

/-- Remote calls performed by the row-creation path of NotionManager: the
initiate-upload request, the send-content request, and the pages.create
request. -/
inductive NotionCall where
  | initiateUpload
  | sendContent
  | pagesCreate
deriving DecidableEq

/-- Behaviour of the external store during one attempt of the creation loop:
the outcome of the initiate-upload step (an upload id, or none for a non-200
response or a response without id), whether the send-content step returns
status 200, and the outcome of pages.create (a page id, or none when it
raises). -/
structure AttemptEnv where
  initiateResult : Option String
  sendOk : Bool
  createResult : Option String
deriving DecidableEq

/-- Embedding of NotionManager.upload_file_to_notion (api/notion.py lines
71-152): the two-step protocol, returning the upload reference or none,
together with the remote calls it made. The send step is only reached when
the initiate step produced an upload id. -/
def upload_file_to_notion (env : AttemptEnv) : Option String × List NotionCall :=
  match env.initiateResult with
  | none => (none, [.initiateUpload])
  | some fid =>
    if env.sendOk then (some fid, [.initiateUpload, .sendContent])
    else (none, [.initiateUpload, .sendContent])

/-- Body of one iteration of the retry loop in create_candidate_row: run the
full file upload, then build the properties and call pages.create. When the
upload returned none, reading the id from it raises, so pages.create is
never reached and the iteration fails. -/
def createRowAttempt (env : AttemptEnv) : Option String × List NotionCall :=
  match upload_file_to_notion env with
  | (none, calls) => (none, calls)
  | (some _, calls) =>
    (env.createResult, calls ++ [.pagesCreate])

/-- The max_attempts constant of create_candidate_row (api/notion.py line 170). -/
def maxAttempts : Nat := 5

/-- The retry loop of create_candidate_row, structured over the number of
attempts still allowed (maxAttempts minus attempts made), which is how the
while guard attempts lt max_attempts terminates. Returns the page id, or
none after the last failed attempt, plus the per-attempt call trace. -/
def createRowLoop (env : Nat → AttemptEnv) (attempts : Nat) :
    Nat → Option String × List (List NotionCall)
  | 0 => (none, [])
  | remaining + 1 =>
    match createRowAttempt (env attempts) with
    | (some pageId, calls) => (some pageId, [calls])
    | (none, calls) =>
      let rest := createRowLoop env (attempts + 1) remaining
      (rest.1, calls :: rest.2)

/-- Embedding of NotionManager.create_candidate_row (api/notion.py lines
154-242): up to maxAttempts attempts, each re-running the full upload before
the row creation; every exception is caught inside the loop, so the function
returns none rather than raising once the attempts are exhausted. -/
def create_candidate_row (env : Nat → AttemptEnv) : Option String × List (List NotionCall) :=
  createRowLoop env 0 maxAttempts

/-- One work item of the record-store phase, as assembled by
process_with_gemini: file name, file path, and the extracted candidate. -/
structure CandidateItem where
  file_name : String
  file_path : String
  candidate : Candidate
deriving DecidableEq

/-- Terminal status of a work item in the record-store phase. -/
inductive UploadStatus where
  | success
  | duplicate
  | failed
deriving DecidableEq

/-- Result dictionary produced by process_notion_upload for one item. -/
structure UploadResult where
  status : UploadStatus
  file_name : String
  error : Option String
deriving DecidableEq

/-- Embedding of process_notion_upload (core/notion_upload.py lines 47-88)
for one item: check the duplicate by the candidate email; when the check
answers true, return the duplicate result at once; otherwise call
create_candidate_row and classify its outcome. The second component counts
the create_candidate_row invocations made for the item. -/
def process_notion_upload (store : NotionStore) (createEnv : Nat → AttemptEnv)
    (item : CandidateItem) : UploadResult × Nat :=
  if check_for_duplicate store item.candidate.email then
    ({ status := .duplicate, file_name := item.file_name, error := none }, 0)
  else
    match (create_candidate_row createEnv).1 with
    | some _ => ({ status := .success, file_name := item.file_name, error := none }, 1)
    | none =>
      ({ status := .failed, file_name := item.file_name,
         error := some "Failed to create Notion page" }, 1)

/-- Aggregate state of upload_to_notion: the three counters and the two name
lists it returns. -/
structure UploadTotals where
  successful_files : Nat
  duplicate_files : Nat
  failed_files : Nat
  failed_files_list : List String
  duplicate_files_list : List String
deriving DecidableEq

/-- One step of the collection loop over completed futures in
upload_to_notion (core/notion_upload.py lines 110-126). -/
def uploadTallyStep (t : UploadTotals) (r : UploadResult) : UploadTotals :=
  match r.status with
  | .success => { t with successful_files := t.successful_files + 1 }
  | .duplicate =>
    { t with duplicate_files := t.duplicate_files + 1,
             duplicate_files_list := t.duplicate_files_list ++ [r.file_name] }
  | .failed =>
    { t with failed_files := t.failed_files + 1,
             failed_files_list := t.failed_files_list ++ [r.file_name] }

/-- Folding the collection loop from the zero-initialised counters. -/
def uploadTally (results : List UploadResult) : UploadTotals :=
  results.foldl uploadTallyStep
    { successful_files := 0, duplicate_files := 0, failed_files := 0,
      failed_files_list := [], duplicate_files_list := [] }

/-- Embedding of upload_to_notion (core/notion_upload.py lines 20-134). Every
candidate gets one task; asyncio.as_completed hands the results back in some
completion order, modelled by the order list of task indices; the counters
and name lists are folded over that order. The createEnv oracle gives each
task index its store behaviour. -/
def upload_to_notion (store : NotionStore) (createEnv : Nat → Nat → AttemptEnv)
    (candidates : List CandidateItem) (order : List Nat) : UploadTotals :=
  let results := (candidates.enum.map
    (fun p => (process_notion_upload store (createEnv p.1) p.2).1))
  uploadTally (order.filterMap (fun i => results[i]?))

/-- An attempt of the creation loop that does not yield a page id: the
iteration ends in the except branch and the loop retries. -/
def attemptFails (a : AttemptEnv) : Prop := (createRowAttempt a).1 = none

/-- Shape of the remote-call trace of a single attempt: the attempt opens
with the initiate-upload request, and whenever the row creation is reached
the attempt performed exactly initiate-upload, then send-content, then
pages.create. -/
def attemptTraceShape (calls : List NotionCall) : Prop :=
  calls.head? = some .initiateUpload ∧
  (NotionCall.pagesCreate ∈ calls → calls = [.initiateUpload, .sendContent, .pagesCreate])

/-- Store attempt behaviour in which every remote step fails. -/
def cexFailEnv : Nat → AttemptEnv :=
  fun _ => { initiateResult := none, sendOk := false, createResult := none }

/-- Store attempt behaviour in which every remote step succeeds. -/
def cexCreateEnv : Nat → AttemptEnv :=
  fun _ => { initiateResult := some "upload-1", sendOk := true, createResult := some "page-1" }

/-- Store holding one row, recorded for the Engineer position. -/
def cexDupStore : NotionStore :=
  { rows := [{ email := "jane@example.com", position_title := "Engineer" }],
    queryRaises := false }

/-- Work item for the same email applying to a different position. -/
def cexDupItem : CandidateItem :=
  { file_name := "cv_designer.pdf",
    file_path := "jobs/Designer/CVs/cv_designer.pdf",
    candidate := { cexSchemaCandidate with job_position_title := "Designer" } }

/-- One discovered CV file as formatted by format_cv_files
(misc/file_processor.py lines 87-100). -/
structure CvFileEntry where
  file_path : String
  file_name : String
deriving DecidableEq

/-- Dictionary appended to cv_data by extract_cv_text for a kept file. -/
structure CvData where
  file_path : String
  file_name : String
  text : String
deriving DecidableEq

/-- Embedding of extract_cv_text (core/extraction.py lines 20-75): walk the
files in order; a file whose extraction throws is skipped, a file whose
stripped text is empty is skipped with a warning naming it (second
component), any other file is appended to cv_data with its text. -/
def extract_cv_text (fs : FileSystem) : List CvFileEntry → List CvData × List String
  | [] => ([], [])
  | f :: rest =>
    let others := extract_cv_text fs rest
    match extract_text_from_file fs f.file_path with
    | .ok t =>
      if strStrip t == "" then (others.1, f.file_name :: others.2)
      else ({ file_path := f.file_path, file_name := f.file_name, text := t } :: others.1,
            others.2)
    | .error _ => others

/-- Result of one extraction-service task in process_with_gemini. -/
inductive GeminiResult where
  | ok (item : CandidateItem)
  | failed (file_name : String) (msg : String)
deriving DecidableEq

/-- Embedding of the per-item closure process_cv_with_gemini
(core/gemini_processing.py lines 51-74): one call to the extraction service
on the item text and the job-description text; an error becomes a failed
result carrying the file name. -/
def process_cv_with_gemini (infer : String → String → Except String Candidate)
    (jd_text : String) (d : CvData) : GeminiResult :=
  match infer d.text jd_text with
  | .ok c => .ok { file_name := d.file_name, file_path := d.file_path, candidate := c }
  | .error msg => .failed d.file_name msg

/-- Embedding of process_with_gemini (core/gemini_processing.py lines 21-117):
one task per cv_data entry, results collected in the as_completed order
given by the order index list; returns the successfully processed candidates
in collection order together with the failed-file counter. -/
def process_with_gemini (infer : String → String → Except String Candidate)
    (jd_text : String) (cv_data : List CvData) (order : List Nat) :
    List CandidateItem × Nat :=
  let results := cv_data.map (process_cv_with_gemini infer jd_text)
  let collected := order.filterMap (fun i => results[i]?)
  (collected.filterMap (fun r => match r with | .ok item => some item | .failed _ _ => none),
   (collected.filter (fun r => match r with | .failed _ _ => true | .ok _ => false)).length)

/-- Filesystem fixture holding one whitespace-only CV and one real CV. -/
def cexCvFs : FileSystem := fun p =>
  if p = "jobs/Engineer/CVs/blank.pdf" then some (.parsed "  \n ")
  else if p = "jobs/Engineer/CVs/good.pdf" then some (.parsed "Solid resume text")
  else none

/-- The whitespace-only CV file of the fixture. -/
def cexBlankFile : CvFileEntry :=
  { file_path := "jobs/Engineer/CVs/blank.pdf", file_name := "blank.pdf" }

/-- The real CV file of the fixture. -/
def cexGoodFile : CvFileEntry :=
  { file_path := "jobs/Engineer/CVs/good.pdf", file_name := "good.pdf" }

/-- Extraction service fixture answering every call with the sample
candidate. -/
def cexInfer : String → String → Except String Candidate :=
  fun _ _ => .ok cexSchemaCandidate

/-- Python values occurring in the tuple returned by upload_to_notion:
counters and lists of file names. -/
inductive PyValue where
  | int (n : Nat)
  | strs (l : List String)
deriving DecidableEq

/-- The return statement of upload_to_notion (core/notion_upload.py lines
128-134) as the sequence of tuple components: the three counters, the
failed-name list, and the duplicate-name list — five values. -/
def upload_to_notion_return (t : UploadTotals) : List PyValue :=
  [.int t.successful_files, .int t.duplicate_files, .int t.failed_files,
   .strs t.failed_files_list, .strs t.duplicate_files_list]

/-- The sequence unpacking that process_command applies to the awaited
result of upload_to_notion (commands/process.py lines 233-245): six
assignment targets, among them successful_files_list; it succeeds only on an
iterable of exactly six values and raises ValueError otherwise. -/
def unpackSix (vs : List PyValue) :
    Option (PyValue × PyValue × PyValue × PyValue × PyValue × PyValue) :=
  match vs with
  | [a, b, c, d, e, f] => some (a, b, c, d, e, f)
  | _ => none

/-- Record store of the full-success scenario: no rows, no query errors. -/
def c1Store : NotionStore := { rows := [], queryRaises := false }

/-- The three candidates of the full-success scenario, one per CV file. -/
def c1Candidates : List CandidateItem :=
  [{ file_name := "cv1.pdf", file_path := "jobs/Engineer/CVs/cv1.pdf",
     candidate := { cexSchemaCandidate with email := "a1@example.com" } },
   { file_name := "cv2.pdf", file_path := "jobs/Engineer/CVs/cv2.pdf",
     candidate := { cexSchemaCandidate with email := "a2@example.com" } },
   { file_name := "cv3.pdf", file_path := "jobs/Engineer/CVs/cv3.pdf",
     candidate := { cexSchemaCandidate with email := "a3@example.com" } }]

/-- Path at which process_command reads and appends the processed log
(commands/process.py line 128): a bare relative file name, resolved against
the current working directory and therefore shared by every position. -/
def processedLogPathBatch : String := ".processed_files.log"

/-- Path at which the watcher reads and appends the processed log
(commands/watch.py line 50): inside the position folder. -/
def processedLogPathWatch (position_folder : String) : String :=
  position_folder ++ "/.processed_files.log"

/-- Text-file view used for the log reads: a path maps to the lines of the
file, none when the file does not exist. -/
def LogFs : Type := String → Option (List String)

/-- Read of a processed-files log (commands/process.py lines 177-181 and
commands/watch.py lines 56-58): the lines of the file when it exists,
otherwise the empty set. -/
def read_processed_files (logfs : LogFs) (path : String) : List String :=
  (logfs path).getD []

/-- Work-list computation of the scanner (commands/process.py lines 177-187):
read the processed set from the batch log path and keep the CV files whose
basename is not recorded. -/
def scanner_work_list (logfs : LogFs) (cv_files : List String) : List String :=
  let processed := read_processed_files logfs processedLogPathBatch
  cv_files.filter (fun file => !(processed.contains (basename file)))

/-- Folder decision of the scanner (commands/process.py lines 194-198): the
position is processed only when the work list is nonempty. -/
def scanner_processes_folder (logfs : LogFs) (cv_files : List String) : Bool :=
  !(scanner_work_list logfs cv_files).isEmpty

/-- Log fixture: the working-directory log already names a.pdf while the
per-position log of jobs/Engineer is empty. -/
def cexLogFs : LogFs := fun p =>
  if p = ".processed_files.log" then some ["a.pdf"]
  else if p = "jobs/Engineer/.processed_files.log" then some [] else none

/-- State of one task of a semaphore-gated pool, counted: tasks not yet
inside the async-with block, tasks holding the semaphore (their service call
is in flight), and finished tasks. -/
structure PoolState where
  waiting : Nat
  holding : Nat
  finished : Nat
deriving DecidableEq

/-- Transitions of one pool under asyncio.Semaphore cap, the construction of
process_with_gemini (core/gemini_processing.py line 49) and upload_to_notion
(core/notion_upload.py line 45): a waiting task may acquire only while fewer
than cap tasks hold the semaphore; a holder may complete its call and
release. -/
inductive PoolStep (cap : Nat) : PoolState → PoolState → Prop where
  | acquire (s : PoolState) (hw : 0 < s.waiting) (hh : s.holding < cap) :
      PoolStep cap s
        { waiting := s.waiting - 1, holding := s.holding + 1, finished := s.finished }
  | release (s : PoolState) (hh : 0 < s.holding) :
      PoolStep cap s
        { waiting := s.waiting, holding := s.holding - 1, finished := s.finished + 1 }

/-- Joint state of the two independent pools of one run: the
extraction-service pool and the record-store pool. -/
structure RunState where
  gemini : PoolState
  notion : PoolState
deriving DecidableEq

/-- Interleaving semantics of the run: each step advances exactly one pool,
each pool gated by its own semaphore. -/
inductive RunStep (g n : Nat) : RunState → RunState → Prop where
  | geminiStep (s : RunState) (p : PoolState) (h : PoolStep g s.gemini p) :
      RunStep g n s { gemini := p, notion := s.notion }
  | notionStep (s : RunState) (p : PoolState) (h : PoolStep n s.notion p) :
      RunStep g n s { gemini := s.gemini, notion := p }

/-- Initial state of a run: all tasks waiting, no call in flight. -/
def initRunState (gTasks nTasks : Nat) : RunState :=
  { gemini := { waiting := gTasks, holding := 0, finished := 0 },
    notion := { waiting := nTasks, holding := 0, finished := 0 } }

/-- Reachability under the interleaving semantics. -/
def RunReachable (g n : Nat) (s s2 : RunState) : Prop :=
  Relation.ReflTransGen (RunStep g n) s s2

/-- Default of the gemini-concurrency CLI option (app.py lines 79-84). -/
def cliDefaultGeminiConcurrency : Nat := 10

/-- Default of the notion-concurrency CLI option (app.py lines 85-90). -/
def cliDefaultNotionConcurrency : Nat := 5

/-- Concurrency limit a run uses for the extraction-service pool: the flag
value when the caller supplies one, the CLI default otherwise. -/
def effectiveGeminiConcurrency (flag : Option Nat) : Nat :=
  flag.getD cliDefaultGeminiConcurrency

/-- Concurrency limit a run uses for the record-store pool: the flag value
when the caller supplies one, the CLI default otherwise. -/
def effectiveNotionConcurrency (flag : Option Nat) : Nat :=
  flag.getD cliDefaultNotionConcurrency

/- ===================== Theorems ===================== -/

/-- Helper: an element read off a list by an in-range optional index belongs
to the list. -/
theorem mem_of_getElem_opt {α : Type} (l : List α) (n : Nat) (a : α)
    (h : l[n]? = some a) : a ∈ l := by
  have hn : n < l.length := by
    by_contra hc
    rw [List.getElem?_eq_none (by omega)] at h
    cases h
  rw [List.getElem?_eq_getElem hn] at h
  cases h
  exact List.getElem_mem hn

/-- Helper: a filter is nonempty exactly when some element satisfies the
predicate. -/
theorem filter_length_pos_eq_any (l : List StoredRow) (p : StoredRow → Bool) :
    decide (0 < (l.filter p).length) = l.any p := by
  induction l with
  | nil => simp
  | cons a l ih =>
    by_cases h : p a <;> simp [List.filter_cons, h, ← ih]

/-- C8. The text extractor dispatches on the file extension: an unsupported
extension fails with the unsupported-format error independently of the
filesystem (no parse is attempted), a supported path that does not exist
fails with the file-not-found error, and a supported path whose parse throws
fails with the extraction error. -/
theorem extract_text_from_file_dispatch (fs fs2 : FileSystem) (path : String) :
    (supportedExtension path = false →
      extract_text_from_file fs path = .error (.unsupportedFormat (lastDotComponent path)) ∧
      extract_text_from_file fs path = extract_text_from_file fs2 path) ∧
    (supportedExtension path = true → fs path = none →
      extract_text_from_file fs path = .error (.fileNotFound path)) ∧
    (∀ msg, supportedExtension path = true → fs path = some (.corrupt msg) →
      extract_text_from_file fs path = .error (.extractionError msg)) := by
  refine ⟨fun hs => ?_, fun hs hfs => ?_, fun msg hs hfs => ?_⟩
  · rw [supportedExtension, Bool.or_eq_false_iff] at hs
    constructor <;> simp [extract_text_from_file, hs.1, hs.2]
  · by_cases hp : strEndsWith (strToLower path) ".pdf"
    · simp [extract_text_from_file, hp, extract_text_from_pdf, hfs]
    · have hd : strEndsWith (strToLower path) ".docx" = true := by
        simpa [supportedExtension, hp] using hs
      simp [extract_text_from_file, hp, hd, extract_text_from_docx, hfs]
  · by_cases hp : strEndsWith (strToLower path) ".pdf"
    · simp [extract_text_from_file, hp, extract_text_from_pdf, hfs]
    · have hd : strEndsWith (strToLower path) ".docx" = true := by
        simpa [supportedExtension, hp] using hs
      simp [extract_text_from_file, hp, hd, extract_text_from_docx, hfs]

/-- Concrete instantiation of the C8 dispatch theorem: a txt path is rejected
without touching the filesystem, a missing pdf reports file-not-found, and a
corrupt docx reports the extraction error. -/
theorem extract_text_from_file_dispatch_witness :
    extract_text_from_file (fun _ => none) "cv.txt" = .error (.unsupportedFormat "txt") ∧
    extract_text_from_file (fun _ => none) "gone.pdf" = .error (.fileNotFound "gone.pdf") ∧
    extract_text_from_file (fun p => if p = "bad.docx" then some (.corrupt "boom") else none)
      "bad.docx" = .error (.extractionError "boom") := by
  refine ⟨?_, ?_, ?_⟩
  · exact ((extract_text_from_file_dispatch (fun _ => none) (fun _ => none) "cv.txt").1
      (by decide)).1
  · exact (extract_text_from_file_dispatch (fun _ => none) (fun _ => none) "gone.pdf").2.1
      (by decide) rfl
  · exact (extract_text_from_file_dispatch
      (fun p => if p = "bad.docx" then some (.corrupt "boom") else none)
      (fun _ => none) "bad.docx").2.2 "boom" (by decide) (by decide)

/-- C9 counterexample. The schema accepts a candidate whose gender field is
the sentinel string of api/models.py line 17 and whose ranking label is the
Literal of line 24, neither of which is among the value spellings the claim
lists. -/
theorem candidate_schema_claim_counterexample :
    parseCandidate cexSchemaCandidate = some cexSchemaCandidate ∧
    cexSchemaCandidate.gender ∉ (["Male", "Female", "Unknown"] : List String) ∧
    cexSchemaCandidate.ranking_category ∉ (["NoFit", "High", "Medium", "Low"] : List String) := by
  decide

/-- C9 amended. Every Candidate that passes schema validation has a gender
among the three Literal values of api/models.py (the third being the
sentinel), a non-negative years_of_experience, a match_score in the closed
interval from 0 to 100, and a ranking category among the four Literal
labels. -/
theorem candidate_schema_invariants (raw c : Candidate)
    (h : parseCandidate raw = some c) :
    (c.gender = "Male" ∨ c.gender = "Female" ∨ c.gender = "N/A") ∧
    0 ≤ c.years_of_experience ∧
    0 ≤ c.match_score ∧ c.match_score ≤ 100 ∧
    (c.ranking_category = "No Fit" ∨ c.ranking_category = "High Fit" ∨
      c.ranking_category = "Medium Fit" ∨ c.ranking_category = "Low Fit") := by
  rw [parseCandidate] at h
  by_cases hv : raw.schemaValid
  · rw [if_pos hv] at h
    cases h
    simp only [Candidate.schemaValid, genderLiterals, rankingCategoryLiterals,
      Bool.and_eq_true, decide_eq_true_eq, List.contains, List.elem_eq_mem,
      List.mem_cons, List.not_mem_nil, or_false, beq_iff_eq] at hv
    tauto
  · rw [if_neg hv] at h
    cases h

/-- Concrete instantiation of the C9 invariant theorem at the sample
candidate. -/
theorem candidate_schema_invariants_witness :
    (cexSchemaCandidate.gender = "Male" ∨ cexSchemaCandidate.gender = "Female" ∨
      cexSchemaCandidate.gender = "N/A") ∧
    0 ≤ cexSchemaCandidate.years_of_experience ∧
    0 ≤ cexSchemaCandidate.match_score ∧ cexSchemaCandidate.match_score ≤ 100 ∧
    (cexSchemaCandidate.ranking_category = "No Fit" ∨
      cexSchemaCandidate.ranking_category = "High Fit" ∨
      cexSchemaCandidate.ranking_category = "Medium Fit" ∨
      cexSchemaCandidate.ranking_category = "Low Fit") :=
  candidate_schema_invariants cexSchemaCandidate cexSchemaCandidate (by decide)

/-- C3. Contract of the duplicate check: it answers true exactly when the
email is neither empty nor the sentinel, the store query does not raise, and
some stored row carries that exact email; and it issues no store query at
all for an empty or sentinel email and exactly one query otherwise. A
raising query therefore yields false, the fail-open policy. -/
theorem check_for_duplicate_contract (store : NotionStore) (email : String) :
    check_for_duplicate store email =
      (!(email == "") && !(email == "N/A") && !store.queryRaises &&
        store.rows.any (fun r => r.email == email)) ∧
    (check_for_duplicate_run store email).2 =
      (if email == "" || email == "N/A" then 0 else 1) := by
  constructor
  · by_cases h1 : (email == "" || email == "N/A")
    · rcases Bool.or_eq_true_iff.mp h1 with h | h <;>
        simp [check_for_duplicate, check_for_duplicate_run, h]
    · have hb := Bool.or_eq_false_iff.mp (Bool.of_not_eq_true h1)
      by_cases h2 : store.queryRaises <;>
        simp [check_for_duplicate, check_for_duplicate_run, queryByEmail,
          hb.1, hb.2, h2, filter_length_pos_eq_any]
  · by_cases h1 : (email == "" || email == "N/A")
    · simp [check_for_duplicate_run, h1]
    · by_cases h2 : store.queryRaises <;>
        simp [check_for_duplicate_run, queryByEmail, Bool.of_not_eq_true h1, h2]

/-- Helper: the call trace of any single creation attempt has the documented
shape. -/
theorem createRowAttempt_shape (a : AttemptEnv) : attemptTraceShape (createRowAttempt a).2 := by
  unfold createRowAttempt upload_file_to_notion attemptTraceShape
  cases h : a.initiateResult with
  | none => simp
  | some fid => by_cases hs : a.sendOk <;> simp [hs]

/-- Helper: the creation loop performs at most remaining attempts. -/
theorem createRowLoop_length_le (env : Nat → AttemptEnv) (attempts remaining : Nat) :
    (createRowLoop env attempts remaining).2.length ≤ remaining := by
  induction remaining generalizing attempts with
  | zero => simp [createRowLoop]
  | succ r ih =>
    rw [createRowLoop]
    cases h : createRowAttempt (env attempts) with
    | mk res calls =>
      cases res with
      | some pageId => simp
      | none => simpa using ih (attempts + 1)

/-- Helper: every attempt recorded by the creation loop has the documented
trace shape. -/
theorem createRowLoop_shape (env : Nat → AttemptEnv) (attempts remaining : Nat) :
    ∀ calls ∈ (createRowLoop env attempts remaining).2, attemptTraceShape calls := by
  induction remaining generalizing attempts with
  | zero => simp [createRowLoop]
  | succ r ih =>
    rw [createRowLoop]
    cases h : createRowAttempt (env attempts) with
    | mk res calls =>
      have hshape : attemptTraceShape calls := by
        have := createRowAttempt_shape (env attempts)
        rwa [h] at this
      cases res with
      | some pageId =>
        intro c hc
        simp at hc
        rwa [hc]
      | none =>
        intro c hc
        simp at hc
        rcases hc with hc | hc
        · rwa [hc]
        · exact ih (attempts + 1) c hc

/-- Helper: when every attempt in the window fails, the loop returns none and
records exactly remaining attempts. -/
theorem createRowLoop_all_fail (env : Nat → AttemptEnv) (attempts remaining : Nat)
    (h : ∀ i, attempts ≤ i → i < attempts + remaining → attemptFails (env i)) :
    (createRowLoop env attempts remaining).1 = none ∧
    (createRowLoop env attempts remaining).2.length = remaining := by
  induction remaining generalizing attempts with
  | zero => simp [createRowLoop]
  | succ r ih =>
    rw [createRowLoop]
    have hfail : (createRowAttempt (env attempts)).1 = none :=
      h attempts (Nat.le_refl _) (by omega)
    cases hc : createRowAttempt (env attempts) with
    | mk res calls =>
      rw [hc] at hfail
      cases hfail
      have := ih (attempts + 1) (fun i h1 h2 => h i (by omega) (by omega))
      simpa using this

/-- C4. The row-creation call attempts the store at most five times; every
attempt, retries included, starts with the full two-step file upload and
only reaches pages.create after initiate-upload and send-content in that
same attempt; and when all five attempts fail the call returns none (instead
of raising) after exactly five attempts. -/
theorem create_candidate_row_retry_bound (env : Nat → AttemptEnv) :
    (create_candidate_row env).2.length ≤ maxAttempts ∧
    (∀ calls ∈ (create_candidate_row env).2, attemptTraceShape calls) ∧
    ((∀ i, i < maxAttempts → attemptFails (env i)) →
      (create_candidate_row env).1 = none ∧
      (create_candidate_row env).2.length = maxAttempts) := by
  refine ⟨createRowLoop_length_le env 0 maxAttempts,
    createRowLoop_shape env 0 maxAttempts, fun h => ?_⟩
  exact createRowLoop_all_fail env 0 maxAttempts (fun i h1 h2 => h i (by omega))

/-- Concrete instantiation of the C4 retry theorem on a store where every
remote step fails: five attempts are made and none is returned. -/
theorem create_candidate_row_retry_bound_witness :
    (create_candidate_row cexFailEnv).2.length ≤ maxAttempts ∧
    (create_candidate_row cexFailEnv).1 = none ∧
    (create_candidate_row cexFailEnv).2.length = maxAttempts := by
  refine ⟨(create_candidate_row_retry_bound cexFailEnv).1, ?_, ?_⟩
  · exact ((create_candidate_row_retry_bound cexFailEnv).2.2 (fun i _ => rfl)).1
  · exact ((create_candidate_row_retry_bound cexFailEnv).2.2 (fun i _ => rfl)).2

/-- C2 counterexample. The store holds a row for the email under the
Engineer position only, yet the duplicate check answers true for the same
email applying to the Designer position, and the item is marked duplicate
with create never invoked: the check is keyed on the email alone, not on the
email-position pair. -/
theorem duplicate_check_pair_counterexample :
    check_for_duplicate cexDupStore cexDupItem.candidate.email = true ∧
    (process_notion_upload cexDupStore cexCreateEnv cexDupItem).1.status = .duplicate ∧
    (process_notion_upload cexDupStore cexCreateEnv cexDupItem).2 = 0 ∧
    (∀ r ∈ cexDupStore.rows,
      ¬(r.email = cexDupItem.candidate.email ∧
        r.position_title = cexDupItem.candidate.job_position_title)) := by
  decide

/-- C2 amended. For every work item of the record-store phase, when the
duplicate check (keyed on the candidate email alone) answers true, the item
is marked duplicate and create_candidate_row is invoked zero times. -/
theorem duplicate_short_circuits_create (store : NotionStore)
    (createEnv : Nat → AttemptEnv) (item : CandidateItem)
    (h : check_for_duplicate store item.candidate.email = true) :
    (process_notion_upload store createEnv item).1.status = .duplicate ∧
    (process_notion_upload store createEnv item).2 = 0 := by
  simp [process_notion_upload, h]

/-- Concrete instantiation of the C2 amended theorem. -/
theorem duplicate_short_circuits_create_witness :
    (process_notion_upload cexDupStore cexFailEnv cexDupItem).1.status = .duplicate ∧
    (process_notion_upload cexDupStore cexFailEnv cexDupItem).2 = 0 :=
  duplicate_short_circuits_create cexDupStore cexFailEnv cexDupItem (by decide)

/-- Helper: the collection fold adds one to exactly one of the three counters
per result. -/
theorem foldl_tally_sum (rs : List UploadResult) (t : UploadTotals) :
    (rs.foldl uploadTallyStep t).successful_files +
      (rs.foldl uploadTallyStep t).duplicate_files +
      (rs.foldl uploadTallyStep t).failed_files =
    t.successful_files + t.duplicate_files + t.failed_files + rs.length := by
  induction rs generalizing t with
  | nil => simp
  | cons r rest ih =>
    rw [List.foldl_cons, ih]
    cases hr : r.status <;> simp [uploadTallyStep, hr] <;> omega

/-- Helper: the collection fold keeps each name list as long as its counter. -/
theorem foldl_tally_lists (rs : List UploadResult) (t : UploadTotals)
    (h1 : t.failed_files_list.length = t.failed_files)
    (h2 : t.duplicate_files_list.length = t.duplicate_files) :
    (rs.foldl uploadTallyStep t).failed_files_list.length =
      (rs.foldl uploadTallyStep t).failed_files ∧
    (rs.foldl uploadTallyStep t).duplicate_files_list.length =
      (rs.foldl uploadTallyStep t).duplicate_files := by
  induction rs generalizing t with
  | nil => exact ⟨h1, h2⟩
  | cons r rest ih =>
    rw [List.foldl_cons]
    cases hr : r.status <;>
      exact ih _ (by simp [uploadTallyStep, hr, h1]) (by simp [uploadTallyStep, hr, h2])

/-- Helper: indexing a list by a list of in-range indices yields one element
per index. -/
theorem filterMap_getElem_length {α : Type} (order : List Nat) (rs : List α)
    (h : ∀ i ∈ order, i < rs.length) :
    (order.filterMap (fun i => rs[i]?)).length = order.length := by
  induction order with
  | nil => simp
  | cons i rest ih =>
    have hi : i < rs.length := h i (List.mem_cons_self i rest)
    rw [List.filterMap_cons, List.getElem?_eq_getElem hi]
    simpa using ih (fun j hj => h j (List.mem_cons_of_mem i hj))

/-- C10. For every candidate list, every store behaviour and every completion
order of the per-candidate tasks, the counters returned by upload_to_notion
partition the input: successful plus duplicate plus failed equals the number
of candidates, the failed-name list is as long as the failed counter, and
the duplicate-name list is as long as the duplicate counter. -/
theorem upload_to_notion_partition (store : NotionStore)
    (createEnv : Nat → Nat → AttemptEnv) (candidates : List CandidateItem)
    (order : List Nat) (h : order.Perm (List.range candidates.length)) :
    (upload_to_notion store createEnv candidates order).successful_files +
      (upload_to_notion store createEnv candidates order).duplicate_files +
      (upload_to_notion store createEnv candidates order).failed_files =
      candidates.length ∧
    (upload_to_notion store createEnv candidates order).failed_files_list.length =
      (upload_to_notion store createEnv candidates order).failed_files ∧
    (upload_to_notion store createEnv candidates order).duplicate_files_list.length =
      (upload_to_notion store createEnv candidates order).duplicate_files := by
  have hlen : (candidates.enum.map
      (fun p => (process_notion_upload store (createEnv p.1) p.2).1)).length =
      candidates.length := by
    simp [List.enum_length]
  have hidx : ∀ i ∈ order, i < (candidates.enum.map
      (fun p => (process_notion_upload store (createEnv p.1) p.2).1)).length := by
    intro i hi
    rw [hlen]
    exact List.mem_range.mp (h.mem_iff.mp hi)
  have hcol := filterMap_getElem_length order _ hidx
  have horder : order.length = candidates.length := by
    simpa using h.length_eq
  refine ⟨?_, ?_⟩
  · have := foldl_tally_sum
      (order.filterMap (fun i => (candidates.enum.map
        (fun p => (process_notion_upload store (createEnv p.1) p.2).1))[i]?))
      { successful_files := 0, duplicate_files := 0, failed_files := 0,
        failed_files_list := [], duplicate_files_list := [] }
    rw [upload_to_notion, uploadTally]
    rw [this, hcol, horder]
    simp
  · exact foldl_tally_lists _ _ rfl rfl

/-- Two-item candidate list used to instantiate the aggregation theorem. -/
def cexUploadCandidates : List CandidateItem :=
  [cexDupItem,
   { file_name := "cv2.pdf", file_path := "jobs/Engineer/CVs/cv2.pdf",
     candidate := cexSchemaCandidate }]

/-- Concrete instantiation of the C10 partition theorem with two candidates
collected in reversed completion order. -/
theorem upload_to_notion_partition_witness :
    (upload_to_notion cexDupStore (fun _ => cexCreateEnv) cexUploadCandidates [1, 0]).successful_files +
      (upload_to_notion cexDupStore (fun _ => cexCreateEnv) cexUploadCandidates [1, 0]).duplicate_files +
      (upload_to_notion cexDupStore (fun _ => cexCreateEnv) cexUploadCandidates [1, 0]).failed_files =
      cexUploadCandidates.length ∧
    (upload_to_notion cexDupStore (fun _ => cexCreateEnv) cexUploadCandidates [1, 0]).failed_files_list.length =
      (upload_to_notion cexDupStore (fun _ => cexCreateEnv) cexUploadCandidates [1, 0]).failed_files ∧
    (upload_to_notion cexDupStore (fun _ => cexCreateEnv) cexUploadCandidates [1, 0]).duplicate_files_list.length =
      (upload_to_notion cexDupStore (fun _ => cexCreateEnv) cexUploadCandidates [1, 0]).duplicate_files :=
  upload_to_notion_partition cexDupStore (fun _ => cexCreateEnv) cexUploadCandidates [1, 0]
    (by decide)

/-- Helper: every file name of the cv_data produced by phase 1 is a name of
an input file. -/
theorem extract_cv_text_names (fs : FileSystem) (files : List CvFileEntry) :
    ∀ d ∈ (extract_cv_text fs files).1, d.file_name ∈ files.map CvFileEntry.file_name := by
  induction files with
  | nil => simp [extract_cv_text]
  | cons f rest ih =>
    intro d hd
    cases hx : extract_text_from_file fs f.file_path with
    | ok t =>
      by_cases hstrip : (strStrip t == "") = true
      · rw [List.map_cons]
        simp only [extract_cv_text, hx, hstrip, if_pos] at hd
        exact List.mem_cons_of_mem _ (ih d hd)
      · simp only [extract_cv_text, hx, hstrip, if_neg, if_false] at hd
        rcases List.mem_cons.mp hd with hd | hd
        · rw [hd]
          simp
        · exact List.mem_cons_of_mem _ (ih d hd)
    | error e =>
      simp only [extract_cv_text, hx] at hd
      exact List.mem_cons_of_mem _ (ih d hd)

/-- Helper: dropping a whitespace-only file leaves the cv_data of the other
files unchanged and records a warning naming the dropped file. -/
theorem extract_cv_text_empty_dropped (fs : FileSystem) (f : CvFileEntry) (t : String)
    (xs ys : List CvFileEntry)
    (hok : extract_text_from_file fs f.file_path = .ok t)
    (hempty : strStrip t = "") :
    (extract_cv_text fs (xs ++ f :: ys)).1 = (extract_cv_text fs (xs ++ ys)).1 ∧
    f.file_name ∈ (extract_cv_text fs (xs ++ f :: ys)).2 := by
  induction xs with
  | nil =>
    simp only [List.nil_append]
    have hcond : (strStrip t == "") = true := by
      rw [hempty]
      rfl
    constructor
    · simp [extract_cv_text, hok, hcond]
    · simp [extract_cv_text, hok, hcond]
  | cons x xs ih =>
    simp only [List.cons_append]
    constructor
    · simp only [extract_cv_text]
      cases hx : extract_text_from_file fs x.file_path with
      | ok tx =>
        dsimp only
        by_cases hstrip : (strStrip tx == "") = true
        · rw [if_pos hstrip, if_pos hstrip]
          exact ih.1
        · rw [if_neg hstrip, if_neg hstrip]
          show _ :: (extract_cv_text fs (xs ++ f :: ys)).1 =
            _ :: (extract_cv_text fs (xs ++ ys)).1
          rw [ih.1]
      | error e => exact ih.1
    · simp only [extract_cv_text]
      cases hx : extract_text_from_file fs x.file_path with
      | ok tx =>
        dsimp only
        by_cases hstrip : (strStrip tx == "") = true
        · rw [if_pos hstrip]
          exact List.mem_cons_of_mem _ ih.2
        · rw [if_neg hstrip]
          exact ih.2
      | error e => exact ih.2

/-- Helper: every candidate emitted by phase 2 carries the file name of one
of its cv_data inputs. -/
theorem process_with_gemini_names (infer : String → String → Except String Candidate)
    (jd_text : String) (cv_data : List CvData) (order : List Nat) :
    ∀ item ∈ (process_with_gemini infer jd_text cv_data order).1,
      item.file_name ∈ cv_data.map CvData.file_name := by
  intro item hitem
  simp only [process_with_gemini] at hitem
  rcases List.mem_filterMap.mp hitem with ⟨r, hr, hcase⟩
  rcases List.mem_filterMap.mp hr with ⟨i, _, hidx⟩
  have hrmem := mem_of_getElem_opt _ i r hidx
  rcases List.mem_map.mp hrmem with ⟨d, hd, hrd⟩
  cases r with
  | ok item2 =>
    cases hcase
    rw [process_cv_with_gemini] at hrd
    cases hinf : infer d.text jd_text with
    | ok c =>
      rw [hinf] at hrd
      cases hrd
      exact List.mem_map.mpr ⟨d, hd, rfl⟩
    | error msg =>
      rw [hinf] at hrd
      cases hrd
  | failed name msg => cases hcase

/-- Helper: the record-store phase keeps the file name of the item it
reports on. -/
theorem process_notion_upload_name (store : NotionStore) (createEnv : Nat → AttemptEnv)
    (item : CandidateItem) :
    (process_notion_upload store createEnv item).1.file_name = item.file_name := by
  rw [process_notion_upload]
  by_cases h : check_for_duplicate store item.candidate.email
  · rw [if_pos h]
  · rw [if_neg h]
    cases (create_candidate_row createEnv).1 <;> rfl

/-- Helper: every name on the failed list accumulated by the collection fold
comes from the initial list or from one of the folded results. -/
theorem foldl_tally_failed_names (rs : List UploadResult) (t : UploadTotals) :
    ∀ name ∈ (rs.foldl uploadTallyStep t).failed_files_list,
      name ∈ t.failed_files_list ∨ name ∈ rs.map UploadResult.file_name := by
  induction rs generalizing t with
  | nil =>
    intro name h
    exact Or.inl h
  | cons r rest ih =>
    intro name h
    rw [List.foldl_cons] at h
    rcases ih (uploadTallyStep t r) name h with hin | hin
    · cases hr : r.status <;> rw [uploadTallyStep, hr] at hin
      · exact Or.inl hin
      · exact Or.inl hin
      · rcases List.mem_append.mp hin with hin | hin
        · exact Or.inl hin
        · rcases List.mem_singleton.mp hin with rfl
          exact Or.inr (by simp)
    · rcases List.mem_map.mp hin with ⟨r2, hr2, hname⟩
      exact Or.inr (List.mem_map.mpr ⟨r2, List.mem_cons_of_mem _ hr2, hname⟩)

/-- Helper: every name on the failed list returned by upload_to_notion is
the name of one of the input candidates. -/
theorem upload_to_notion_failed_names (store : NotionStore)
    (createEnv : Nat → Nat → AttemptEnv) (candidates : List CandidateItem)
    (order : List Nat) :
    ∀ name ∈ (upload_to_notion store createEnv candidates order).failed_files_list,
      name ∈ candidates.map CandidateItem.file_name := by
  intro name h
  rw [upload_to_notion, uploadTally] at h
  rcases foldl_tally_failed_names _ _ name h with hin | hin
  · cases hin
  · rcases List.mem_map.mp hin with ⟨r, hr, hname⟩
    rcases List.mem_filterMap.mp hr with ⟨i, _, hidx⟩
    have hrmem := mem_of_getElem_opt _ i r hidx
    rcases List.mem_map.mp hrmem with ⟨p, hp, hrp⟩
    have hpc : p.2 ∈ candidates :=
      mem_of_getElem_opt _ p.1 p.2 (List.mem_enum_iff_getElem?.mp hp)
    refine List.mem_map.mpr ⟨p.2, hpc, ?_⟩
    rw [← hname, ← hrp, process_notion_upload_name]

/-- C7. A work item whose extracted text strips to nothing is dropped in
phase 1 with a warning naming it: the cv_data handed to the later phases is
exactly the cv_data of the other files, so the item is never submitted to
the extraction service or the record store, its name is absent from the
phase-2 input, and (when no other file shares its name) absent from the
phase-2 output and from the failed-file list of the record-store phase. -/
theorem empty_text_item_excluded (fs : FileSystem) (f : CvFileEntry) (t : String)
    (xs ys : List CvFileEntry)
    (hok : extract_text_from_file fs f.file_path = .ok t)
    (hempty : strStrip t = "")
    (hname : ∀ g ∈ xs ++ ys, g.file_name ≠ f.file_name) :
    (extract_cv_text fs (xs ++ f :: ys)).1 = (extract_cv_text fs (xs ++ ys)).1 ∧
    f.file_name ∈ (extract_cv_text fs (xs ++ f :: ys)).2 ∧
    f.file_name ∉ ((extract_cv_text fs (xs ++ f :: ys)).1.map CvData.file_name) ∧
    (∀ infer jd_text gorder,
      f.file_name ∉ ((process_with_gemini infer jd_text
        (extract_cv_text fs (xs ++ f :: ys)).1 gorder).1.map CandidateItem.file_name)) ∧
    (∀ infer jd_text gorder store createEnv norder,
      f.file_name ∉ (upload_to_notion store createEnv
        (process_with_gemini infer jd_text
          (extract_cv_text fs (xs ++ f :: ys)).1 gorder).1 norder).failed_files_list) := by
  obtain ⟨heq, hwarn⟩ := extract_cv_text_empty_dropped fs f t xs ys hok hempty
  have hnotin : f.file_name ∉ ((extract_cv_text fs (xs ++ f :: ys)).1.map CvData.file_name) := by
    intro hmem
    rw [heq] at hmem
    rcases List.mem_map.mp hmem with ⟨d, hd, hdname⟩
    have hd2 := extract_cv_text_names fs (xs ++ ys) d hd
    rcases List.mem_map.mp hd2 with ⟨g, hg, hgname⟩
    exact hname g hg (by rw [hgname, hdname])
  have hnotin2 : ∀ infer jd_text gorder,
      f.file_name ∉ ((process_with_gemini infer jd_text
        (extract_cv_text fs (xs ++ f :: ys)).1 gorder).1.map CandidateItem.file_name) := by
    intro infer jd_text gorder hmem
    rcases List.mem_map.mp hmem with ⟨item, hitem, hiname⟩
    have := process_with_gemini_names infer jd_text _ gorder item hitem
    rw [hiname] at this
    exact hnotin this
  refine ⟨heq, hwarn, hnotin, hnotin2, ?_⟩
  intro infer jd_text gorder store createEnv norder hmem
  have := upload_to_notion_failed_names store createEnv _ norder f.file_name hmem
  rcases List.mem_map.mp this with ⟨item, hitem, hiname⟩
  exact hnotin2 infer jd_text gorder
    (List.mem_map.mpr ⟨item, hitem, hiname⟩)

/-- Concrete instantiation of the C7 exclusion theorem: a whitespace-only CV
followed by a real CV; the blank file is warned about and appears in no
downstream output. -/
theorem empty_text_item_excluded_witness :
    (extract_cv_text cexCvFs [cexBlankFile, cexGoodFile]).1 =
      (extract_cv_text cexCvFs [cexGoodFile]).1 ∧
    cexBlankFile.file_name ∈ (extract_cv_text cexCvFs [cexBlankFile, cexGoodFile]).2 ∧
    cexBlankFile.file_name ∉
      ((extract_cv_text cexCvFs [cexBlankFile, cexGoodFile]).1.map CvData.file_name) ∧
    cexBlankFile.file_name ∉ ((process_with_gemini cexInfer "JD text"
      (extract_cv_text cexCvFs [cexBlankFile, cexGoodFile]).1 [0]).1.map
        CandidateItem.file_name) ∧
    cexBlankFile.file_name ∉ (upload_to_notion cexDupStore (fun _ => cexCreateEnv)
      (process_with_gemini cexInfer "JD text"
        (extract_cv_text cexCvFs [cexBlankFile, cexGoodFile]).1 [0]).1
      [0]).failed_files_list := by
  have h := empty_text_item_excluded cexCvFs cexBlankFile "  \n " [] [cexGoodFile]
    (by rfl) (by decide) (by decide)
  exact ⟨h.1, h.2.1, h.2.2.1, h.2.2.2.1 cexInfer "JD text" [0],
    h.2.2.2.2 cexInfer "JD text" [0] cexDupStore (fun _ => cexCreateEnv) [0]⟩

/-- C1. In the full-success scenario — three fresh candidates, a store with
no rows and no query errors, create succeeding for every item — phase 3
computes successful 3, duplicate 0, failed 0, yet the six-target unpacking
that process_command applies to the five-component tuple upload_to_notion
returns yields no match, so the run raises ValueError at the phase-3 call
site before the report is shown or the processed log is appended. -/
theorem scenario_full_success_unpack_fails :
    (upload_to_notion c1Store (fun _ => cexCreateEnv) c1Candidates [0, 1, 2]).successful_files = 3 ∧
    (upload_to_notion c1Store (fun _ => cexCreateEnv) c1Candidates [0, 1, 2]).duplicate_files = 0 ∧
    (upload_to_notion c1Store (fun _ => cexCreateEnv) c1Candidates [0, 1, 2]).failed_files = 0 ∧
    (upload_to_notion_return
      (upload_to_notion c1Store (fun _ => cexCreateEnv) c1Candidates [0, 1, 2])).length = 5 ∧
    unpackSix (upload_to_notion_return
      (upload_to_notion c1Store (fun _ => cexCreateEnv) c1Candidates [0, 1, 2])) = none := by
  decide

/-- C6. The batch scanner consults the working-directory log, not the log of
the position folder the watcher maintains: with the per-position log of
jobs/Engineer empty and a.pdf recorded only in the working-directory log,
the scanner computes an empty work list and skips the folder, although the
per-position log at the watcher path records nothing; with no log present at
the batch path the same file stays on the work list, exhibiting the
set-difference semantics. -/
theorem scanner_log_not_per_position :
    scanner_work_list cexLogFs ["jobs/Engineer/CVs/a.pdf"] = [] ∧
    scanner_processes_folder cexLogFs ["jobs/Engineer/CVs/a.pdf"] = false ∧
    read_processed_files cexLogFs (processedLogPathWatch "jobs/Engineer") = [] ∧
    processedLogPathBatch ≠ processedLogPathWatch "jobs/Engineer" ∧
    scanner_work_list (fun _ => none) ["jobs/Engineer/CVs/a.pdf"] =
      ["jobs/Engineer/CVs/a.pdf"] := by
  decide

/-- Helper: reachable run states keep each holding count within its pool
capacity. -/
theorem runReachable_holding_le (g n gTasks nTasks : Nat) (s : RunState)
    (h : RunReachable g n (initRunState gTasks nTasks) s) :
    s.gemini.holding ≤ g ∧ s.notion.holding ≤ n := by
  induction h with
  | refl => constructor <;> simp [initRunState]
  | tail hsteps hstep ih =>
    cases hstep with
    | geminiStep p hp =>
      cases hp with
      | acquire hw hh => exact ⟨hh, ih.2⟩
      | release hh => exact ⟨Nat.le_trans (Nat.sub_le _ _) ih.1, ih.2⟩
    | notionStep p hp =>
      cases hp with
      | acquire hw hh => exact ⟨ih.1, hh⟩
      | release hh => exact ⟨ih.1, Nat.le_trans (Nat.sub_le _ _) ih.2⟩

/-- C5. Safety of the two bounded pools: in every state reachable from the
start of a run, at most g extraction-service calls and at most n
record-store calls are in flight, each pool gated by its own semaphore; and
a run started without explicit limits uses the CLI defaults of 10 for the
extraction-service pool and 5 for the record-store pool. -/
theorem concurrency_bounds (g n gTasks nTasks : Nat) (_hg : 1 ≤ g) (_hn : 1 ≤ n)
    (s : RunState) (h : RunReachable g n (initRunState gTasks nTasks) s) :
    s.gemini.holding ≤ g ∧ s.notion.holding ≤ n ∧
    effectiveGeminiConcurrency none = 10 ∧ effectiveNotionConcurrency none = 5 := by
  obtain ⟨h1, h2⟩ := runReachable_holding_le g n gTasks nTasks s h
  exact ⟨h1, h2, rfl, rfl⟩

/-- Concrete instantiation of the C5 bound theorem at the default limits,
after one acquire step of the extraction-service pool. -/
theorem concurrency_bounds_witness :
    (RunState.mk { waiting := 11, holding := 1, finished := 0 }
      { waiting := 7, holding := 0, finished := 0 }).gemini.holding ≤ 10 ∧
    (RunState.mk { waiting := 11, holding := 1, finished := 0 }
      { waiting := 7, holding := 0, finished := 0 }).notion.holding ≤ 5 ∧
    effectiveGeminiConcurrency none = 10 ∧ effectiveNotionConcurrency none = 5 :=
  concurrency_bounds 10 5 12 7 (by decide) (by decide) _
    (Relation.ReflTransGen.single
      (RunStep.geminiStep _ _ (PoolStep.acquire _ (by decide) (by decide))))
